import Mathlib

/-
  Verification of the conversational context assembly and persistence flow
  of the AI travel assistant backend (`server.py`).

  The embedding models:
  - the `chat_messages` Mongo collection as a list of `ChatMessage` records in
    insertion order, together with a uuid counter and a monotone clock
    (`DBState`);
  - the Mongo query `find({session_id: sid}).sort("timestamp", 1).to_list(length=n)`
    as a stable sort by timestamp of the session's turns followed by `take n`;
  - the `POST /api/chat` handler `chat_with_ai` with the OpenAI call injected
    as a function `gw` returning `Except` (an exception or the reply string);
  - the `GET /api/chat-history/siD` handler `get_chat_history`;
  - pydantic validation of the request body (`parseChatRequest` over a raw
    body whose fields may be absent).
-/

namespace TravelAssistant

/-- One stored chat turn: the `ChatMessage` pydantic model of `server.py`
(`id`, `session_id`, `message`, `sender`, `timestamp`). Timestamps are
modelled as naturals produced by a monotone clock. -/
structure ChatMessage where
  id : String
  session_id : String
  message : String
  sender : String
  timestamp : Nat
deriving Repr, DecidableEq

/-- The `ChatRequest` pydantic model: `message` required, the other five
fields optional (`None` by default). -/
structure ChatRequest where
  message : String
  session_id : Option String := none
  budget : Option String := none
  location : Option String := none
  duration : Option String := none
  travelers : Option Int := none
deriving Repr, DecidableEq

/-- The `ChatResponse` pydantic model. -/
structure ChatResponse where
  message : String
  session_id : String
  image_url : Option String := none
deriving Repr, DecidableEq

/-- One role/content entry of the prompt sent to the completion provider. -/
structure PromptEntry where
  role : String
  content : String
deriving Repr, DecidableEq

/-- An HTTP outcome: a 200 payload, or an `HTTPException(status_code, detail)`. -/
inductive HttpResult (α : Type) where
  | ok : α → HttpResult α
  | error : Nat → String → HttpResult α
deriving Repr, DecidableEq

/-- State of the `chat_messages` collection plus the uuid generator and the
wall clock: `turns` is the collection in insertion order, `nextId` feeds
`uuid.uuid4()`, `clock` feeds `datetime.now(timezone.utc)` and advances on
every insert. -/
structure DBState where
  turns : List ChatMessage
  nextId : Nat
  clock : Nat
deriving Repr, DecidableEq

/-- Model of `str(uuid.uuid4())`: the n-th generated uuid. -/
def genUuid (n : Nat) : String := "uuid-" ++ toString n

/-- Python `x or d` on an optional string: `None` and `""` are falsy. -/
def pyOrStr (o : Option String) (d : String) : String :=
  match o with
  | some s => if s = "" then d else s
  | none => d

/-- Python `x or d` on an optional int: `None` and `0` are falsy. -/
def pyOrInt (o : Option Int) (d : Int) : Int :=
  match o with
  | some n => if n = 0 then d else n
  | none => d

/-- Python truthiness of an optional string field. -/
def truthyStr (o : Option String) : Bool :=
  match o with
  | some s => s ≠ ""
  | none => false

/-- Python truthiness of an optional int field. -/
def truthyInt (o : Option Int) : Bool :=
  match o with
  | some n => n ≠ 0
  | none => false

/-- Comparison used by the Mongo sort on `"timestamp"` ascending. -/
abbrev tsLe (a b : ChatMessage) : Prop := a.timestamp ≤ b.timestamp

/-- Insert a turn into a timestamp-sorted list, keeping earlier elements of
the original list before later ones on equal timestamps (stable). -/
def insertByTs (t : ChatMessage) : List ChatMessage → List ChatMessage
  | [] => [t]
  | u :: us => if u.timestamp < t.timestamp then u :: insertByTs t us else t :: u :: us

/-- Stable sort by ascending timestamp (model of Mongo `sort("timestamp", 1)`). -/
def sortByTs : List ChatMessage → List ChatMessage
  | [] => []
  | t :: ts => insertByTs t (sortByTs ts)

/-- The turns of one session, in insertion order (model of the Mongo filter
on `session_id`). -/
def sessionTurns (turns : List ChatMessage) (sid : String) : List ChatMessage :=
  turns.filter (fun t => t.session_id = sid)

/-- Model of `find(session_id).sort("timestamp", 1).to_list(length=n)`:
filter by session, sort ascending by timestamp, return the first `n`. -/
def mongoFindSortedTake (turns : List ChatMessage) (sid : String) (n : Nat) :
    List ChatMessage :=
  (sortByTs (sessionTurns turns sid)).take n

/-- The turn created by `ChatMessage(session_id=.., message=.., sender=..)`
at state `st`: fresh uuid, current clock value. -/
def mkTurn (st : DBState) (sid msg sender : String) : ChatMessage :=
  { id := genUuid st.nextId, session_id := sid, message := msg,
    sender := sender, timestamp := st.clock }

/-- Model of `db.chat_messages.insert_one(ChatMessage(...).dict())`: append
the new turn and advance uuid counter and clock. -/
def appendTurn (st : DBState) (sid msg sender : String) : ChatMessage × DBState :=
  (mkTurn st sid msg sender,
   { turns := st.turns ++ [mkTurn st sid msg sender],
     nextId := st.nextId + 1, clock := st.clock + 1 })

/-- Model of `session_id = request.session_id or str(uuid.uuid4())`:
`None` and `""` are falsy, so both trigger generation of a fresh uuid
(which consumes the generator). -/
def resolveSession (st : DBState) (o : Option String) : String × DBState :=
  match o with
  | some s =>
      if s = "" then (genUuid st.nextId, { st with nextId := st.nextId + 1 })
      else (s, st)
  | none => (genUuid st.nextId, { st with nextId := st.nextId + 1 })

/-- The fixed system instruction inserted at position 0 of the prompt. -/
def systemInstruction : String :=
  "You are a helpful travel assistant. Always give unique, personalized plans."

/-- The condition of `if request.location or request.duration or
request.budget or request.travelers:` (Python truthiness of each field). -/
def tripCond (r : ChatRequest) : Bool :=
  truthyStr r.location || truthyStr r.duration || truthyStr r.budget ||
    truthyInt r.travelers

/-- The trip-details f-string rendered for the trailing system entry, with
Python `or` substituting for falsy fields. -/
def tripContext (r : ChatRequest) : String :=
  "\n            Trip details:\n            " ++
  "- Location: " ++ pyOrStr r.location "not specified" ++ "\n            " ++
  "- Duration: " ++ pyOrStr r.duration "not specified" ++ "\n            " ++
  "- Budget: " ++ pyOrStr r.budget "not specified" ++ "\n            " ++
  "- Travelers: " ++ toString (pyOrInt r.travelers 1) ++ "\n            "

/-- Assembly of the provider prompt from the fetched history and the request:
map each turn to role/content, insert the system instruction at position 0,
and append the trip-context entry when the truthiness condition holds. -/
def assembleMessages (history : List ChatMessage) (r : ChatRequest) :
    List PromptEntry :=
  let mapped := history.map (fun m => { role := m.sender, content := m.message : PromptEntry })
  let withSystem := { role := "system", content := systemInstruction : PromptEntry } :: mapped
  if tripCond r then
    withSystem ++ [{ role := "system", content := tripContext r : PromptEntry }]
  else
    withSystem

/-- The history window fetched for context: `find(session_id).sort("timestamp",
1).to_list(length=5)`. -/
def fetchContextHistory (turns : List ChatMessage) (sid : String) :
    List ChatMessage :=
  mongoFindSortedTake turns sid 5

/-- The prompt assembled by `chat_with_ai` at store state `st` for session
`sid` and request `r`. -/
def assembledContext (st : DBState) (sid : String) (r : ChatRequest) :
    List PromptEntry :=
  assembleMessages (fetchContextHistory st.turns sid) r

/-- The detail string of the `HTTPException` raised by the chat handler's
except-block: the f-string embeds `str(e)`. -/
def chatErrorDetail (e : String) : String := "Chat processing failed: " ++ e

/-- The `POST /api/chat` handler `chat_with_ai`. The OpenAI call is the
injected `gw`; any exception it raises is the `Except.error` case, caught by
the handler's except-block and converted to a 500 whose detail embeds the
exception text. Step order follows the source: resolve session id, persist
the user turn, fetch the window and assemble the prompt, call the gateway,
persist the assistant turn, respond. -/
def chat_with_ai (gw : List PromptEntry → Except String String)
    (st : DBState) (r : ChatRequest) : HttpResult ChatResponse × DBState :=
  let rs := resolveSession st r.session_id
  let session_id := rs.1
  let st1 := (appendTurn rs.2 session_id r.message "user").2
  let messages := assembledContext st1 session_id r
  match gw messages with
  | Except.error e => (HttpResult.error 500 (chatErrorDetail e), st1)
  | Except.ok response =>
      let st2 := (appendTurn st1 session_id response "assistant").2
      (HttpResult.ok { message := response, session_id := session_id, image_url := none },
       st2)

/-- The `GET /api/chat-history/siD` handler: session turns sorted ascending
by timestamp, first 100, returned with status 200. -/
def get_chat_history (st : DBState) (session_id : String) :
    HttpResult (List ChatMessage) :=
  HttpResult.ok (mongoFindSortedTake st.turns session_id 100)

/-- A raw `POST /api/chat` JSON body: each field either absent (`none`) or a
value of the declared type. -/
structure RawChatBody where
  message : Option String := none
  session_id : Option String := none
  budget : Option String := none
  location : Option String := none
  duration : Option String := none
  travelers : Option Int := none
deriving Repr, DecidableEq

/-- Pydantic validation of `ChatRequest`: `message: str` is required (any
string, the empty string included); the other fields are optional. -/
def parseChatRequest (b : RawChatBody) : Option ChatRequest :=
  match b.message with
  | none => none
  | some m =>
      some { message := m, session_id := b.session_id, budget := b.budget,
             location := b.location, duration := b.duration,
             travelers := b.travelers }

/-- The `POST /api/chat` route including framework validation: a body failing
validation is answered 422 and the handler never runs. -/
def postChat (gw : List PromptEntry → Except String String)
    (st : DBState) (b : RawChatBody) : HttpResult ChatResponse × DBState :=
  match parseChatRequest b with
  | none => (HttpResult.error 422 "field required: message", st)
  | some r => chat_with_ai gw st r

/-- Well-formedness of the store: timestamps non-decreasing in insertion
order, and all strictly below the current clock. -/
def StoreWF (st : DBState) : Prop :=
  List.Pairwise tsLe st.turns ∧ ∀ t ∈ st.turns, t.timestamp < st.clock

/-- A gateway that always answers with the fixed reply `"REPLY"`. -/
def gwReply : List PromptEntry → Except String String :=
  fun _ => Except.ok "REPLY"

/-- The empty store. -/
def emptyStore : DBState := { turns := [], nextId := 0, clock := 0 }

/-- A gateway that always raises, with a provider-specific exception text. -/
def gwFail : List PromptEntry → Except String String :=
  fun _ => Except.error "OpenAI API error: invalid api key sk-123"

/-- A gateway that always raises with a storage-specific exception text. -/
def gwFailStore : List PromptEntry → Except String String :=
  fun _ => Except.error "Mongo connection refused"

/-- A store fixture: `k` turns of session `"s"`, user-sent, timestamps
`0, 1, ..., k-1` in insertion order. -/
def seqTurns (k : Nat) : List ChatMessage :=
  (List.range k).map (fun i =>
    { id := "m" ++ toString i, session_id := "s", message := "old" ++ toString i,
      sender := "user", timestamp := i })

/-- A store holding five prior turns of session `"s"`. -/
def c1Store : DBState := { turns := seqTurns 5, nextId := 0, clock := 5 }

/-- The store reached inside `chat_with_ai` right after persisting the user
turn of a sixth message on `c1Store`. -/
def c1St1 : DBState := (appendTurn c1Store "s" "PLAN TRIP NOW" "user").2

/-- A store holding 99 prior turns of session `"s"`. -/
def c2cexStore : DBState := { turns := seqTurns 99, nextId := 0, clock := 99 }

/-- The chat request used against `c2cexStore`. -/
def c2cexReq : ChatRequest := { message := "NEWMSG", session_id := some "s" }

/-- The store after a successful chat request on `c2cexStore` (101 turns of
session `"s"`). -/
def c2cexFinal : DBState := (chat_with_ai gwReply c2cexStore c2cexReq).2

/-- A store holding 101 turns of session `"s"`. -/
def c8Store : DBState := { turns := seqTurns 101, nextId := 0, clock := 101 }

/-- A request whose only trip field is present but an empty string. -/
def c4Req : ChatRequest := { message := "hi", session_id := some "s", budget := some "" }

/-- The store reached after persisting the user turn of `c4Req` on the empty
store. -/
def c4St1 : DBState := (appendTurn emptyStore "s" "hi" "user").2

/-- A request with one non-empty trip field. -/
def c4DemoReq : ChatRequest :=
  { message := "hi", session_id := some "s", location := some "Paris, France" }

/-- A plain request with a provided non-empty session id. -/
def demoReq : ChatRequest := { message := "hi", session_id := some "s" }

/-- A request with an explicit empty-string session id. -/
def emptySidReq : ChatRequest := { message := "hi", session_id := some "" }

/-- The body of the repository test's invalid-request scenario. -/
def c3Body : RawChatBody := { message := some "", session_id := some "" }

/-- The payload of an `ok` history result (empty list on error). -/
def histList : HttpResult (List ChatMessage) → List ChatMessage
  | HttpResult.ok l => l
  | HttpResult.error _ _ => []

/-- The user turn persisted by `chat_with_ai` at state `st` when the session
id `s` was provided by the caller. -/
def userTurnOf (st : DBState) (s m : String) : ChatMessage :=
  { id := genUuid st.nextId, session_id := s, message := m,
    sender := "user", timestamp := st.clock }

/-- The assistant turn persisted by `chat_with_ai` at state `st` when the
session id `s` was provided by the caller. -/
def aiTurnOf (st : DBState) (s m : String) : ChatMessage :=
  { id := genUuid (st.nextId + 1), session_id := s, message := m,
    sender := "assistant", timestamp := st.clock + 1 }

/-- The user turn persisted by `chat_with_ai` at state `st` when the session
id was generated (absent or empty in the request). -/
def userTurnFresh (st : DBState) (m : String) : ChatMessage :=
  { id := genUuid (st.nextId + 1), session_id := genUuid st.nextId, message := m,
    sender := "user", timestamp := st.clock }

/-- The assistant turn persisted by `chat_with_ai` at state `st` when the
session id was generated. -/
def aiTurnFresh (st : DBState) (m : String) : ChatMessage :=
  { id := genUuid (st.nextId + 2), session_id := genUuid st.nextId, message := m,
    sender := "assistant", timestamp := st.clock + 1 }

/-- Inserting a turn grows the list by one. -/
theorem length_insertByTs (t : ChatMessage) (l : List ChatMessage) :
    (insertByTs t l).length = l.length + 1 := by
  induction l with
  | nil => rfl
  | cons u us ih =>
      unfold insertByTs
      by_cases h : u.timestamp < t.timestamp
      · simp [h, ih]
      · simp [h]

/-- Sorting preserves length. -/
theorem length_sortByTs (l : List ChatMessage) : (sortByTs l).length = l.length := by
  induction l with
  | nil => rfl
  | cons t ts ih => simp [sortByTs, length_insertByTs, ih]

/-- A list whose timestamps are already pairwise non-decreasing is left
unchanged by the sort. -/
theorem sortByTs_eq_self (l : List ChatMessage) (h : List.Pairwise tsLe l) :
    sortByTs l = l := by
  induction l with
  | nil => rfl
  | cons t ts ih =>
      have hts : List.Pairwise tsLe ts := (List.pairwise_cons.mp h).2
      rw [sortByTs, ih hts]
      cases ts with
      | nil => rfl
      | cons u us =>
          have htu : tsLe t u := (List.pairwise_cons.mp h).1 u (by simp)
          unfold insertByTs
          rw [if_neg (Nat.not_lt.mpr htu)]

/-- On a store whose insertion order already has non-decreasing timestamps,
the Mongo query reduces to taking the first `n` session turns in insertion
order. -/
theorem mongoFindSortedTake_eq_take (turns : List ChatMessage) (sid : String)
    (n : Nat) (h : List.Pairwise tsLe turns) :
    mongoFindSortedTake turns sid n = (sessionTurns turns sid).take n := by
  unfold mongoFindSortedTake
  have hp : List.Pairwise tsLe (sessionTurns turns sid) := by
    unfold sessionTurns
    exact h.filter _
  rw [sortByTs_eq_self _ hp]

/-- Session filtering distributes over append. -/
theorem sessionTurns_append (l₁ l₂ : List ChatMessage) (sid : String) :
    sessionTurns (l₁ ++ l₂) sid = sessionTurns l₁ sid ++ sessionTurns l₂ sid := by
  simp [sessionTurns]

/-- Membership is preserved through insertion. -/
theorem mem_insertByTs {u t : ChatMessage} {l : List ChatMessage}
    (h : u ∈ insertByTs t l) : u = t ∨ u ∈ l := by
  induction l with
  | nil =>
      simp [insertByTs] at h
      exact Or.inl h
  | cons v vs ih =>
      unfold insertByTs at h
      by_cases hc : v.timestamp < t.timestamp
      · rw [if_pos hc] at h
        rcases List.mem_cons.mp h with h1 | h1
        · exact Or.inr (by simp [h1])
        · rcases ih h1 with h2 | h2
          · exact Or.inl h2
          · exact Or.inr (by simp [h2])
      · rw [if_neg hc] at h
        rcases List.mem_cons.mp h with h1 | h1
        · exact Or.inl h1
        · exact Or.inr h1

/-- Membership is preserved through sorting. -/
theorem mem_sortByTs {u : ChatMessage} {l : List ChatMessage}
    (h : u ∈ sortByTs l) : u ∈ l := by
  induction l with
  | nil => simp [sortByTs] at h
  | cons t ts ih =>
      rw [sortByTs] at h
      rcases mem_insertByTs h with h1 | h1
      · simp [h1]
      · simp [ih h1]

/-- Every turn of the fetched context window is a stored turn. -/
theorem mem_fetchContextHistory {m : ChatMessage} {turns : List ChatMessage}
    {sid : String} (h : m ∈ fetchContextHistory turns sid) : m ∈ turns := by
  unfold fetchContextHistory mongoFindSortedTake at h
  have h1 : m ∈ sessionTurns turns sid := mem_sortByTs (List.take_subset _ _ h)
  unfold sessionTurns at h1
  exact List.mem_of_mem_filter h1

/-- Session id resolution touches only the uuid counter, never the stored
turns. -/
theorem resolveSession_turns (st : DBState) (o : Option String) :
    (resolveSession st o).2.turns = st.turns := by
  cases o with
  | none => rfl
  | some s => by_cases h : s = "" <;> simp [resolveSession, h]

/-- Run of `chat_with_ai` with a provided non-empty session id and a gateway
that answers: both turns appended, uuid counter and clock advanced twice. -/
theorem chat_run_ok (gw : List PromptEntry → Except String String)
    (st : DBState) (r : ChatRequest) (s reply : String)
    (hs : r.session_id = some s) (hne : s ≠ "")
    (hgw : ∀ m, gw m = Except.ok reply) :
    chat_with_ai gw st r =
      (HttpResult.ok { message := reply, session_id := s, image_url := none },
       { turns := st.turns ++ [userTurnOf st s r.message, aiTurnOf st s reply],
         nextId := st.nextId + 2, clock := st.clock + 2 }) := by
  simp [chat_with_ai, resolveSession, hs, hne, hgw, appendTurn, mkTurn,
        userTurnOf, aiTurnOf]

/-- Run of `chat_with_ai` with a provided non-empty session id and a gateway
that raises: only the user turn appended, error 500 with embedded detail. -/
theorem chat_run_err (gw : List PromptEntry → Except String String)
    (st : DBState) (r : ChatRequest) (s e : String)
    (hs : r.session_id = some s) (hne : s ≠ "")
    (hgw : ∀ m, gw m = Except.error e) :
    chat_with_ai gw st r =
      (HttpResult.error 500 (chatErrorDetail e),
       { turns := st.turns ++ [userTurnOf st s r.message],
         nextId := st.nextId + 1, clock := st.clock + 1 }) := by
  simp [chat_with_ai, resolveSession, hs, hne, hgw, appendTurn, mkTurn, userTurnOf]

/-- Run of `chat_with_ai` with an absent or empty session id and a gateway
that answers: a fresh session uuid is generated, both turns appended under it. -/
theorem chat_run_ok_fresh (gw : List PromptEntry → Except String String)
    (st : DBState) (r : ChatRequest) (reply : String)
    (hs : r.session_id = none ∨ r.session_id = some "")
    (hgw : ∀ m, gw m = Except.ok reply) :
    chat_with_ai gw st r =
      (HttpResult.ok { message := reply, session_id := genUuid st.nextId,
                       image_url := none },
       { turns := st.turns ++ [userTurnFresh st r.message, aiTurnFresh st reply],
         nextId := st.nextId + 3, clock := st.clock + 2 }) := by
  rcases hs with hs | hs <;>
    simp [chat_with_ai, resolveSession, hs, hgw, appendTurn, mkTurn,
          userTurnFresh, aiTurnFresh]

/-- A generated uuid is never the empty string. -/
theorem genUuid_ne_empty (n : Nat) : genUuid n ≠ "" := by
  intro h
  have hlen := congrArg String.length h
  simp [genUuid, String.length_append] at hlen
  exact absurd hlen.1 (by decide)

/-- C1: the context fetch is claimed to return the five MOST RECENT stored
turns, so the just-persisted user message would always be among them. The
code sorts ascending by timestamp and then limits to 5, which returns the
five OLDEST turns — contradicting its own comment "Fetch last 5 messages for
context". Concretely: with five prior turns of session "s", after persisting
the sixth (user) message the fetched window is exactly the five old turns,
the just-persisted message is absent, while the five most recent turns (the
last five of the ascending order) do contain it. -/
theorem c1_fetch_window_is_oldest_not_most_recent :
    fetchContextHistory c1St1.turns "s" = seqTurns 5 ∧
    (fetchContextHistory c1St1.turns "s").all
      (fun t => t.message != "PLAN TRIP NOW") = true ∧
    ((sortByTs (sessionTurns c1St1.turns "s")).drop
        ((sessionTurns c1St1.turns "s").length - 5)).any
      (fun t => t.message == "PLAN TRIP NOW") = true := by
  decide

/-- C3 is violated by the code: the body with empty `message` and empty
`session_id` passes pydantic validation (`message: str` has no non-emptiness
constraint), the handler runs, answers 200 with a freshly generated session
id, and persists two turns — the repository's own test
(`test_error_handling` in `backend_test.py`) expects 422 and no persistence. -/
theorem c3_empty_message_accepted_and_persisted :
    parseChatRequest c3Body = some { message := "", session_id := some "" } ∧
    (postChat gwReply emptyStore c3Body).1 =
      HttpResult.ok { message := "REPLY", session_id := genUuid 0,
                      image_url := none } ∧
    (postChat gwReply emptyStore c3Body).2.turns.length = 2 := by
  decide

/-- C4 counterexample: `c4Req` has a trip field present (`budget` is the
empty string), yet the assembled prompt has `1 + min(5, stored_count)`
entries and no trailing trip-context entry, because the code tests Python
truthiness (`request.location or ...`), not presence. -/
theorem c4_counterexample_present_but_empty_budget :
    c4Req.budget = some "" ∧
    assembledContext c4St1 "s" c4Req =
      [{ role := "system", content := systemInstruction },
       { role := "user", content := "hi" }] ∧
    (assembledContext c4St1 "s" c4Req).length ≠
      2 + min 5 (sessionTurns c4St1.turns "s").length := by
  decide

/-- C4 (amended): for every request with at least one TRUTHY trip field (a
non-empty string, or a nonzero traveler count), the assembled prompt at any
store state has exactly `2 + min(5, stored_count)` entries; the last entry is
the system-role trip-context rendering all four labels, with "not specified"
substituted for each text field that is absent or empty and 1 for a traveler
count that is absent or zero. -/
theorem c4_trip_context_assembly (st : DBState) (sid : String) (r : ChatRequest)
    (h : tripCond r = true) :
    (assembledContext st sid r).length =
      2 + min 5 (sessionTurns st.turns sid).length ∧
    (assembledContext st sid r).getLast? =
      some { role := "system", content := tripContext r } ∧
    tripContext r =
      "\n            Trip details:\n            " ++
      "- Location: " ++ pyOrStr r.location "not specified" ++ "\n            " ++
      "- Duration: " ++ pyOrStr r.duration "not specified" ++ "\n            " ++
      "- Budget: " ++ pyOrStr r.budget "not specified" ++ "\n            " ++
      "- Travelers: " ++ toString (pyOrInt r.travelers 1) ++ "\n            " ∧
    (r.location = none ∨ r.location = some "" →
      pyOrStr r.location "not specified" = "not specified") ∧
    (r.duration = none ∨ r.duration = some "" →
      pyOrStr r.duration "not specified" = "not specified") ∧
    (r.budget = none ∨ r.budget = some "" →
      pyOrStr r.budget "not specified" = "not specified") ∧
    (r.travelers = none ∨ r.travelers = some 0 → pyOrInt r.travelers 1 = 1) := by
  refine ⟨?_, ?_, rfl, ?_, ?_, ?_, ?_⟩
  · simp [assembledContext, assembleMessages, h, fetchContextHistory,
          mongoFindSortedTake, List.length_take, length_sortByTs]
    omega
  · simp only [assembledContext, assembleMessages, h, if_true]
    exact List.getLast?_concat _
  · rintro (hl | hl) <;> simp [pyOrStr, hl]
  · rintro (hl | hl) <;> simp [pyOrStr, hl]
  · rintro (hl | hl) <;> simp [pyOrStr, hl]
  · rintro (hl | hl) <;> simp [pyOrInt, hl]

/-- Witness for the amended C4 at a concrete input: empty store, request with
one non-empty trip field (`location`), all hypotheses discharged. -/
theorem c4_trip_context_assembly_witness :
    (assembledContext emptyStore "s" c4DemoReq).length =
      2 + min 5 (sessionTurns emptyStore.turns "s").length ∧
    (assembledContext emptyStore "s" c4DemoReq).getLast? =
      some { role := "system", content := tripContext c4DemoReq } ∧
    tripContext c4DemoReq =
      "\n            Trip details:\n            " ++
      "- Location: " ++ pyOrStr c4DemoReq.location "not specified" ++ "\n            " ++
      "- Duration: " ++ pyOrStr c4DemoReq.duration "not specified" ++ "\n            " ++
      "- Budget: " ++ pyOrStr c4DemoReq.budget "not specified" ++ "\n            " ++
      "- Travelers: " ++ toString (pyOrInt c4DemoReq.travelers 1) ++ "\n            " ∧
    (c4DemoReq.location = none ∨ c4DemoReq.location = some "" →
      pyOrStr c4DemoReq.location "not specified" = "not specified") ∧
    (c4DemoReq.duration = none ∨ c4DemoReq.duration = some "" →
      pyOrStr c4DemoReq.duration "not specified" = "not specified") ∧
    (c4DemoReq.budget = none ∨ c4DemoReq.budget = some "" →
      pyOrStr c4DemoReq.budget "not specified" = "not specified") ∧
    (c4DemoReq.travelers = none ∨ c4DemoReq.travelers = some 0 →
      pyOrInt c4DemoReq.travelers 1 = 1) :=
  c4_trip_context_assembly emptyStore "s" c4DemoReq (by decide)

/-- C5: for every request with no trip field present, the assembled prompt at
any store state has exactly `1 + min(5, stored_count)` entries and its first
entry is the system-role fixed instruction. -/
theorem c5_no_trip_fields_assembly (st : DBState) (sid : String) (r : ChatRequest)
    (h1 : r.location = none) (h2 : r.duration = none)
    (h3 : r.budget = none) (h4 : r.travelers = none) :
    (assembledContext st sid r).length =
      1 + min 5 (sessionTurns st.turns sid).length ∧
    (assembledContext st sid r).head? =
      some { role := "system", content := systemInstruction } := by
  have hc : tripCond r = false := by
    simp [tripCond, truthyStr, truthyInt, h1, h2, h3, h4]
  constructor
  · simp [assembledContext, assembleMessages, hc, fetchContextHistory,
          mongoFindSortedTake, List.length_take, length_sortByTs]
    omega
  · simp [assembledContext, assembleMessages, hc]

/-- Witness for C5 at a concrete input: the plain request with no trip
fields against the empty store. -/
theorem c5_no_trip_fields_assembly_witness :
    (assembledContext emptyStore "s" demoReq).length =
      1 + min 5 (sessionTurns emptyStore.turns "s").length ∧
    (assembledContext emptyStore "s" demoReq).head? =
      some { role := "system", content := systemInstruction } :=
  c5_no_trip_fields_assembly emptyStore "s" demoReq rfl rfl rfl rfl

/-- C2 counterexample: with 99 prior turns in session "s", a successful chat
request brings the session to 101 turns, but the history endpoint truncates
to the first 100 of the ascending order: the returned array has 100 entries,
all of them user-sent — the just-persisted assistant turn is not among them,
so the two just-persisted turns are not the two most recent entries. -/
theorem c2_counterexample_history_truncated_at_100 :
    (chat_with_ai gwReply c2cexStore c2cexReq).1 =
      HttpResult.ok { message := "REPLY", session_id := "s", image_url := none } ∧
    (histList (get_chat_history c2cexFinal "s")).length = 100 ∧
    (histList (get_chat_history c2cexFinal "s")).all
      (fun t => t.sender == "user") = true := by
  decide

/-- C2 (amended): immediately after a successful chat request on a session
that ends up with at most 100 turns (at most 98 before the request), the
history endpoint returns the prior session turns followed by the
just-persisted user turn and assistant turn — the two most recent entries,
in that order. -/
theorem c2_history_roundtrip (gw : List PromptEntry → Except String String)
    (st : DBState) (r : ChatRequest) (s reply : String)
    (hWF : StoreWF st) (hs : r.session_id = some s) (hne : s ≠ "")
    (hlen : (sessionTurns st.turns s).length ≤ 98)
    (hgw : ∀ m, gw m = Except.ok reply) :
    get_chat_history (chat_with_ai gw st r).2 s =
      HttpResult.ok (sessionTurns st.turns s ++
        [userTurnOf st s r.message, aiTurnOf st s reply]) ∧
    (userTurnOf st s r.message).sender = "user" ∧
    (userTurnOf st s r.message).message = r.message ∧
    (aiTurnOf st s reply).sender = "assistant" ∧
    (aiTurnOf st s reply).message = reply := by
  rw [chat_run_ok gw st r s reply hs hne hgw]
  have hpw : List.Pairwise tsLe
      (st.turns ++ [userTurnOf st s r.message, aiTurnOf st s reply]) := by
    rw [List.pairwise_append]
    refine ⟨hWF.1, ?_, ?_⟩
    · simp [List.pairwise_cons, tsLe, userTurnOf, aiTurnOf]
    · intro a ha b hb
      have hlt := hWF.2 a ha
      simp only [List.mem_cons, List.not_mem_nil, or_false] at hb
      rcases hb with hb | hb <;> subst hb <;>
        simp only [tsLe, userTurnOf, aiTurnOf] <;> omega
  refine ⟨?_, rfl, rfl, rfl, rfl⟩
  rw [get_chat_history]
  rw [mongoFindSortedTake_eq_take _ _ _ hpw, sessionTurns_append]
  have hnew : sessionTurns [userTurnOf st s r.message, aiTurnOf st s reply] s =
      [userTurnOf st s r.message, aiTurnOf st s reply] := by
    simp [sessionTurns, userTurnOf, aiTurnOf]
  rw [hnew]
  rw [List.take_of_length_le (by simp; omega)]

/-- Witness for the amended C2 at a concrete input: empty store, provided
session id "s", gateway answering "REPLY". -/
theorem c2_history_roundtrip_witness :
    get_chat_history (chat_with_ai gwReply emptyStore demoReq).2 "s" =
      HttpResult.ok (sessionTurns emptyStore.turns "s" ++
        [userTurnOf emptyStore "s" demoReq.message,
         aiTurnOf emptyStore "s" "REPLY"]) ∧
    (userTurnOf emptyStore "s" demoReq.message).sender = "user" ∧
    (userTurnOf emptyStore "s" demoReq.message).message = demoReq.message ∧
    (aiTurnOf emptyStore "s" "REPLY").sender = "assistant" ∧
    (aiTurnOf emptyStore "s" "REPLY").message = "REPLY" :=
  c2_history_roundtrip gwReply emptyStore demoReq "s" "REPLY"
    ⟨List.Pairwise.nil, by simp [emptyStore]⟩ rfl (by decide) (by decide)
    (fun _ => rfl)

/-- C6 counterexample: the 500 detail returned to the caller embeds the
internal exception text (`detail=f"Chat processing failed: ..."` with
`str(e)` interpolated): two different internal failures produce two different
caller-visible details, and each detail contains the internal message — the
error surfaced is not a single opaque message. -/
theorem c6_counterexample_detail_exposes_internal_error :
    (chat_with_ai gwFail emptyStore demoReq).1 =
      HttpResult.error 500
        ("Chat processing failed: " ++ "OpenAI API error: invalid api key sk-123") ∧
    (chat_with_ai gwFailStore emptyStore demoReq).1 =
      HttpResult.error 500
        ("Chat processing failed: " ++ "Mongo connection refused") ∧
    (chat_with_ai gwFail emptyStore demoReq).1 ≠
      (chat_with_ai gwFailStore emptyStore demoReq).1 := by
  decide

/-- C6 (amended): every exception raised during chat handling is caught at
the handler boundary and converted to one HTTP 500 whose detail is the fixed
text "Chat processing failed: " followed by the internal exception message —
the internal detail is embedded in the caller-visible response, not kept to
the internal log. -/
theorem c6_error_detail_embeds_exception
    (gw : List PromptEntry → Except String String)
    (st : DBState) (r : ChatRequest) (e : String)
    (hgw : ∀ m, gw m = Except.error e) :
    (chat_with_ai gw st r).1 =
      HttpResult.error 500 ("Chat processing failed: " ++ e) := by
  simp [chat_with_ai, hgw, chatErrorDetail]

/-- Witness for the amended C6 at a concrete input. -/
theorem c6_error_detail_embeds_exception_witness :
    (chat_with_ai gwFail emptyStore demoReq).1 =
      HttpResult.error 500
        ("Chat processing failed: " ++ "OpenAI API error: invalid api key sk-123") :=
  c6_error_detail_embeds_exception gwFail emptyStore demoReq
    "OpenAI API error: invalid api key sk-123" (fun _ => rfl)

/-- C7: the step order of the orchestrator is fixed. When the gateway raises
after the user turn has been persisted, no rollback happens: the final store
is exactly the old store plus the user turn, and a single 500 failure is
reported. When the gateway answers, the user turn is persisted strictly
before the assistant turn (adjacent at the end of the store, with a smaller
timestamp). -/
theorem c7_persist_order_and_no_rollback
    (gw : List PromptEntry → Except String String)
    (st : DBState) (r : ChatRequest) (s : String)
    (hs : r.session_id = some s) (hne : s ≠ "") :
    (∀ e, (∀ m, gw m = Except.error e) →
      (chat_with_ai gw st r).1 = HttpResult.error 500 (chatErrorDetail e) ∧
      (chat_with_ai gw st r).2.turns = st.turns ++ [userTurnOf st s r.message] ∧
      (userTurnOf st s r.message).sender = "user" ∧
      (userTurnOf st s r.message).message = r.message ∧
      (userTurnOf st s r.message).session_id = s) ∧
    (∀ reply, (∀ m, gw m = Except.ok reply) →
      (chat_with_ai gw st r).2.turns =
        st.turns ++ [userTurnOf st s r.message, aiTurnOf st s reply] ∧
      (userTurnOf st s r.message).timestamp <
        (aiTurnOf st s reply).timestamp) := by
  constructor
  · intro e hgw
    rw [chat_run_err gw st r s e hs hne hgw]
    exact ⟨rfl, rfl, rfl, rfl, rfl⟩
  · intro reply hgw
    rw [chat_run_ok gw st r s reply hs hne hgw]
    exact ⟨rfl, by simp [userTurnOf, aiTurnOf]⟩

/-- Witness for C7 at a concrete input: failing gateway, empty store,
provided session id "s". -/
theorem c7_persist_order_and_no_rollback_witness :
    (∀ e, (∀ m, gwFail m = Except.error e) →
      (chat_with_ai gwFail emptyStore demoReq).1 =
        HttpResult.error 500 (chatErrorDetail e) ∧
      (chat_with_ai gwFail emptyStore demoReq).2.turns =
        emptyStore.turns ++ [userTurnOf emptyStore "s" demoReq.message] ∧
      (userTurnOf emptyStore "s" demoReq.message).sender = "user" ∧
      (userTurnOf emptyStore "s" demoReq.message).message = demoReq.message ∧
      (userTurnOf emptyStore "s" demoReq.message).session_id = "s") ∧
    (∀ reply, (∀ m, gwFail m = Except.ok reply) →
      (chat_with_ai gwFail emptyStore demoReq).2.turns =
        emptyStore.turns ++ [userTurnOf emptyStore "s" demoReq.message,
                             aiTurnOf emptyStore "s" reply] ∧
      (userTurnOf emptyStore "s" demoReq.message).timestamp <
        (aiTurnOf emptyStore "s" reply).timestamp) :=
  c7_persist_order_and_no_rollback gwFail emptyStore demoReq "s" rfl (by decide)

/-- C8 counterexample: a session holding 101 turns. The endpoint still
answers 200, but the returned array holds only the first 100 turns of the
ascending order — it is not the array of the session's stored turns, whose
count is 101. -/
theorem c8_counterexample_truncated_at_100 :
    (sessionTurns c8Store.turns "s").length = 101 ∧
    get_chat_history c8Store "s" =
      HttpResult.ok ((sessionTurns c8Store.turns "s").take 100) ∧
    (histList (get_chat_history c8Store "s")).length = 100 := by
  decide

/-- C8 (amended): for every session id, the history endpoint answers 200
with the session's stored turns in ascending timestamp order truncated to
the first (oldest) 100; in particular it answers 200 with the empty array —
never an error — for a session id with no stored turns. -/
theorem c8_history_endpoint_total (st : DBState) (sid : String)
    (hWF : List.Pairwise tsLe st.turns) :
    get_chat_history st sid =
      HttpResult.ok ((sessionTurns st.turns sid).take 100) ∧
    (sessionTurns st.turns sid = [] →
      get_chat_history st sid = HttpResult.ok []) ∧
    List.Pairwise tsLe (histList (get_chat_history st sid)) := by
  have hmain : get_chat_history st sid =
      HttpResult.ok ((sessionTurns st.turns sid).take 100) := by
    rw [get_chat_history, mongoFindSortedTake_eq_take _ _ _ hWF]
  refine ⟨hmain, ?_, ?_⟩
  · intro hnil
    rw [hmain, hnil]
    rfl
  · rw [hmain, histList]
    have hp : List.Pairwise tsLe (sessionTurns st.turns sid) := by
      unfold sessionTurns
      exact hWF.filter _
    exact hp.sublist (List.take_sublist _ _)

/-- Witness for the amended C8 at a concrete input: the empty store and an
unknown session id. -/
theorem c8_history_endpoint_total_witness :
    get_chat_history emptyStore "unknown-id" =
      HttpResult.ok ((sessionTurns emptyStore.turns "unknown-id").take 100) ∧
    (sessionTurns emptyStore.turns "unknown-id" = [] →
      get_chat_history emptyStore "unknown-id" = HttpResult.ok []) ∧
    List.Pairwise tsLe (histList (get_chat_history emptyStore "unknown-id")) :=
  c8_history_endpoint_total emptyStore "unknown-id" List.Pairwise.nil

/-- C9: an empty-string `session_id` is treated exactly like an absent one:
the whole handler run is equal to the run with the field absent, and on a
successful gateway call a freshly generated, non-empty session id is
returned, the two turns are persisted under it (it groups exactly those two
turns when the generated uuid is fresh), and nothing is persisted under the
empty string. -/
theorem c9_empty_session_id_like_absent
    (gw : List PromptEntry → Except String String)
    (st : DBState) (r : ChatRequest)
    (h : r.session_id = some "")
    (hfresh : ∀ t ∈ st.turns, t.session_id ≠ genUuid st.nextId) :
    chat_with_ai gw st r = chat_with_ai gw st { r with session_id := none } ∧
    (∀ reply, (∀ m, gw m = Except.ok reply) →
      (chat_with_ai gw st r).1 =
        HttpResult.ok { message := reply, session_id := genUuid st.nextId,
                        image_url := none } ∧
      genUuid st.nextId ≠ "" ∧
      sessionTurns (chat_with_ai gw st r).2.turns "" =
        sessionTurns st.turns "" ∧
      sessionTurns (chat_with_ai gw st r).2.turns (genUuid st.nextId) =
        [userTurnFresh st r.message, aiTurnFresh st reply]) := by
  constructor
  · simp only [chat_with_ai, resolveSession, h, reduceIte]
    rfl
  · intro reply hgw
    rw [chat_run_ok_fresh gw st r reply (Or.inr h) hgw]
    refine ⟨rfl, genUuid_ne_empty _, ?_, ?_⟩
    · rw [sessionTurns_append]
      have hnil : sessionTurns
          [userTurnFresh st r.message, aiTurnFresh st reply] "" = [] := by
        simp [sessionTurns, userTurnFresh, aiTurnFresh, genUuid_ne_empty]
      rw [hnil, List.append_nil]
    · rw [sessionTurns_append]
      have hold : sessionTurns st.turns (genUuid st.nextId) = [] := by
        unfold sessionTurns
        rw [List.filter_eq_nil_iff]
        intro t ht
        simp only [decide_eq_true_eq]
        exact hfresh t ht
      have hnew : sessionTurns
          [userTurnFresh st r.message, aiTurnFresh st reply] (genUuid st.nextId) =
          [userTurnFresh st r.message, aiTurnFresh st reply] := by
        simp [sessionTurns, userTurnFresh, aiTurnFresh]
      rw [hold, hnew, List.nil_append]

/-- Witness for C9 at a concrete input: the request carrying an explicit
empty-string session id against the empty store. -/
theorem c9_empty_session_id_like_absent_witness :
    chat_with_ai gwReply emptyStore emptySidReq =
      chat_with_ai gwReply emptyStore { emptySidReq with session_id := none } ∧
    (∀ reply, (∀ m, gwReply m = Except.ok reply) →
      (chat_with_ai gwReply emptyStore emptySidReq).1 =
        HttpResult.ok { message := reply, session_id := genUuid emptyStore.nextId,
                        image_url := none } ∧
      genUuid emptyStore.nextId ≠ "" ∧
      sessionTurns (chat_with_ai gwReply emptyStore emptySidReq).2.turns "" =
        sessionTurns emptyStore.turns "" ∧
      sessionTurns (chat_with_ai gwReply emptyStore emptySidReq).2.turns
          (genUuid emptyStore.nextId) =
        [userTurnFresh emptyStore emptySidReq.message,
         aiTurnFresh emptyStore reply]) :=
  c9_empty_session_id_like_absent gwReply emptyStore emptySidReq rfl
    (by simp [emptyStore])

/-- C10: every chat run appends either one turn (gateway failure) with
sender "user", or two turns with senders "user" then "assistant"; and in a
store all of whose turns carry one of these two senders, every entry of the
assembled prompt carries role "system", "user" or "assistant". -/
theorem c10_sender_roles (gw : List PromptEntry → Except String String)
    (st : DBState) (r : ChatRequest) :
    ((∃ u, (chat_with_ai gw st r).2.turns = st.turns ++ [u] ∧
        u.sender = "user") ∨
     (∃ u a, (chat_with_ai gw st r).2.turns = st.turns ++ [u, a] ∧
        u.sender = "user" ∧ a.sender = "assistant")) ∧
    (∀ sid, (∀ t ∈ st.turns, t.sender = "user" ∨ t.sender = "assistant") →
      ∀ pe ∈ assembledContext st sid r,
        pe.role = "system" ∨ pe.role = "user" ∨ pe.role = "assistant") := by
  constructor
  · rcases hgw : gw (assembledContext
        (appendTurn (resolveSession st r.session_id).2
          (resolveSession st r.session_id).1 r.message "user").2
        (resolveSession st r.session_id).1 r) with e | reply
    · left
      refine ⟨mkTurn (resolveSession st r.session_id).2
        (resolveSession st r.session_id).1 r.message "user", ?_, rfl⟩
      simp only [chat_with_ai, hgw]
      simp [appendTurn, resolveSession_turns]
    · right
      refine ⟨mkTurn (resolveSession st r.session_id).2
          (resolveSession st r.session_id).1 r.message "user",
        mkTurn (appendTurn (resolveSession st r.session_id).2
            (resolveSession st r.session_id).1 r.message "user").2
          (resolveSession st r.session_id).1 reply "assistant", ?_, rfl, rfl⟩
      simp only [chat_with_ai, hgw]
      simp [appendTurn, resolveSession_turns]
  · intro sid hsnd pe hpe
    simp only [assembledContext, assembleMessages] at hpe
    by_cases hc : tripCond r = true
    · rw [if_pos hc] at hpe
      rcases List.mem_append.mp hpe with hpe | hpe
      · rcases List.mem_cons.mp hpe with hpe | hpe
        · left
          rw [hpe]
        · rcases List.mem_map.mp hpe with ⟨m, hm, hpm⟩
          rcases hsnd m (mem_fetchContextHistory hm) with h1 | h1
          · right; left
            rw [← hpm]
            exact h1
          · right; right
            rw [← hpm]
            exact h1
      · left
        simp only [List.mem_singleton] at hpe
        rw [hpe]
    · rw [if_neg hc] at hpe
      rcases List.mem_cons.mp hpe with hpe | hpe
      · left
        rw [hpe]
      · rcases List.mem_map.mp hpe with ⟨m, hm, hpm⟩
        rcases hsnd m (mem_fetchContextHistory hm) with h1 | h1
        · right; left
          rw [← hpm]
          exact h1
        · right; right
          rw [← hpm]
          exact h1

/-- Witness for C10 at a concrete input (its only hypotheses are inner
implications, discharged here at the empty store). -/
theorem c10_sender_roles_witness :
    ((∃ u, (chat_with_ai gwReply emptyStore demoReq).2.turns =
        emptyStore.turns ++ [u] ∧ u.sender = "user") ∨
     (∃ u a, (chat_with_ai gwReply emptyStore demoReq).2.turns =
        emptyStore.turns ++ [u, a] ∧
        u.sender = "user" ∧ a.sender = "assistant")) ∧
    (∀ sid, (∀ t ∈ emptyStore.turns,
        t.sender = "user" ∨ t.sender = "assistant") →
      ∀ pe ∈ assembledContext emptyStore sid demoReq,
        pe.role = "system" ∨ pe.role = "user" ∨ pe.role = "assistant") :=
  c10_sender_roles gwReply emptyStore demoReq

end TravelAssistant
